import Mathlib

/-!
# Text service: create and fetch handlers over the `texts` table

A shallow embedding of `src/cmd/main.go`: the storage initializer
`setupDatabase`, the create handler `postText` and the get handler `getText`.

The program talks to three libraries, each modelled at the level the program
observes it:

* `strconv.Atoi` and the `%d` verb of `fmt.Sprintf`, on lists of characters;
* the JSON binding of `gin` (`ShouldBindJSON`: decode with `encoding/json`,
  then check the `binding:"required"` tags), on the syntax tree of the body;
* `database/sql`: a handle is a state transformer that answers a statement
  with the first row of its result or with an error.

Go's `int` is 64 bits wide here; integers are `Int` with the range checked
wherever the program or a library checks it.
-/

namespace TextService

/-! ## Integers of the program -/

/-- Width of Go's `int` on the platform of the service. -/
def intSize : Nat := 64

/-- Largest value of `int`. -/
def maxInt : Int := 2 ^ (intSize - 1) - 1

/-- Smallest value of `int`. -/
def minInt : Int := -(2 ^ (intSize - 1))

/-- The integer is a value of `int`. -/
def inIntRange (n : Int) : Prop := minInt ≤ n ∧ n ≤ maxInt

instance (n : Int) : Decidable (inIntRange n) := by
  unfold inIntRange; infer_instance

/-! ## `strconv.Atoi` -/

/-- The two failures of `strconv`: `ErrSyntax` and `ErrRange`. -/
inductive NumError where
  | errSyntax
  | errRange
  deriving DecidableEq, Repr

/-- Largest value of `uint64`, the accumulator of `ParseUint`. -/
def maxUint64 : Nat := 2 ^ 64 - 1

/-- The bound `cutoff` of `ParseUint` in base 10: the least `n` with
`n * 10` beyond `uint64`. -/
def cutoff10 : Nat := maxUint64 / 10 + 1

/-- The byte is an ASCII digit. -/
def isDigitChar (c : Char) : Bool := decide (48 ≤ c.toNat) && decide (c.toNat ≤ 57)

/-- Value of a digit byte, `c - '0'`. -/
def digitVal (c : Char) : Nat := c.toNat - 48

/-- The loop of `ParseUint(s, 10, 64)`: a byte that is no digit is a syntax
error; an accumulator at or beyond the cutoff, or a sum beyond `uint64`, is a
range error. -/
def parseUintLoop : Nat → List Char → Except NumError Nat
  | n, [] => .ok n
  | n, c :: cs =>
    if isDigitChar c then
      if cutoff10 ≤ n then .error .errRange
      else
        let n1 := n * 10 + digitVal c
        if maxUint64 < n1 then .error .errRange
        else parseUintLoop n1 cs
    else .error .errSyntax

/-- The function `ParseUint(s, 10, 64)`: the empty string is a syntax error. -/
def parseUint (s : List Char) : Except NumError Nat :=
  match s with
  | [] => .error .errSyntax
  | _ => parseUintLoop 0 s

/-- The function `ParseInt(s, 10, 0)`: an optional sign, then `ParseUint`,
then the check against the range of `int`. -/
def parseInt (s : List Char) : Except NumError Int :=
  match s with
  | [] => .error .errSyntax
  | c :: cs =>
    let neg := c == '-'
    let rest := if c == '+' || c == '-' then cs else c :: cs
    match parseUint rest with
    | .error e => .error e
    | .ok un =>
      if !neg && decide (2 ^ (intSize - 1) ≤ un) then .error .errRange
      else if neg && decide (2 ^ (intSize - 1) < un) then .error .errRange
      else .ok (if neg then -(un : Int) else (un : Int))

/-- The function `strconv.Atoi`. Its fast path for short strings computes what
`ParseInt(s, 10, 0)` computes, so the slow path stands for both. -/
def Atoi (s : String) : Except NumError Int := parseInt s.toList

/-! ## Decimal rendering (`%d`, `strconv.Itoa`) -/

/-- The byte of the last decimal digit of `n`, `'0' + n % 10`. -/
def digitChar (n : Nat) : Char := Char.ofNat (48 + n % 10)

/-- Digits of `n`, most significant first, in front of `acc`; `fuel` bounds
the number of divisions and `n + 1` is always enough. -/
def formatDigits : Nat → Nat → List Char → List Char
  | 0, _, acc => acc
  | fuel + 1, n, acc =>
    if n / 10 = 0 then digitChar n :: acc
    else formatDigits fuel (n / 10) (digitChar n :: acc)

/-- Decimal digits of a natural number. -/
def formatNat (n : Nat) : List Char := formatDigits (n + 1) n []

/-- Decimal rendering of an integer, as `strconv.Itoa` and `%d` give it. -/
def Itoa (n : Int) : String :=
  match n with
  | .ofNat m => String.mk (formatNat m)
  | .negSucc m => String.mk ('-' :: formatNat (m + 1))

/-! ## JSON values and the binding of a request body -/

/-- Syntax tree of a JSON value. A number literal is either an integer
literal (`num`) or one with a fraction or an exponent (`frac`, kept as
written). -/
inductive Json where
  | null
  | bool (b : Bool)
  | num (n : Int)
  | frac (lit : String)
  | str (s : String)
  | arr (items : List Json)
  | obj (members : List (String × Json))

/-- A request body as the JSON decoder meets it. The decoder reads one JSON
value from the start of the body and does not examine the bytes after it:
`noValue` is a body with no well-formed JSON value at its start (a syntax
error inside the first value, or an empty body), `value j` a body that is the
JSON text of `j`, and `valueThen j rest` the JSON text of `j` followed by the
further bytes `rest`. -/
inductive Body where
  | noValue
  | value (j : Json)
  | valueThen (j : Json) (rest : String)

/-- The value `Decode` reads from the body, if it reads one. -/
def Body.first : Body → Option Json
  | .noValue => none
  | .value j => some j
  | .valueThen j _ => some j

/-- White space of JSON: space, tab, line feed, carriage return. -/
def isJsonSpace (c : Char) : Bool :=
  c.toNat == 32 || c.toNat == 9 || c.toNat == 10 || c.toNat == 13

/-- The body as a whole is not a JSON text: it has no well-formed value at
its start, or bytes other than white space after that value. -/
def Body.isMalformed : Body → Bool
  | .noValue => true
  | .value _ => false
  | .valueThen _ rest => rest.toList.any (fun c => !isJsonSpace c)

/-- The entity of the service, `type TextEntry struct`. -/
structure TextEntry where
  ID : Int
  Text : String
  deriving DecidableEq, Repr

/-- Failures of `ShouldBindJSON`. -/
inductive BindError where
  | badJson
  | unmarshalType (field : String)
  | required (field : String)
  deriving DecidableEq, Repr

/-- Key matching of `encoding/json`: an object key names a struct field when
it equals the field's JSON name up to the case of ASCII letters (the names
`id` and `text` contain no letter with a fold outside ASCII). -/
def keyMatches (key field : String) : Bool :=
  key.toList.map Char.toLower == field.toList

/-- Progress of a decode: the entry as filled so far and the first error
saved. The decoder saves a type error and goes on with the next member. -/
structure DecodeState where
  entry : TextEntry
  err : Option BindError
  deriving DecidableEq, Repr

/-- Records an error unless one is saved already (`saveError`). -/
def DecodeState.saveError (d : DecodeState) (e : BindError) : DecodeState :=
  match d.err with
  | none => { d with err := some e }
  | some _ => d

/-- Stores a JSON value into the field `ID int`: an integer literal within
`int` is stored, `null` changes nothing, everything else is a type error. -/
def storeID (d : DecodeState) (v : Json) : DecodeState :=
  match v with
  | .null => d
  | .num n =>
    if inIntRange n then { d with entry := { d.entry with ID := n } }
    else d.saveError (.unmarshalType "id")
  | _ => d.saveError (.unmarshalType "id")

/-- Stores a JSON value into the field `Text string`: a string is stored,
`null` changes nothing, everything else is a type error. -/
def storeText (d : DecodeState) (v : Json) : DecodeState :=
  match v with
  | .null => d
  | .str s => { d with entry := { d.entry with Text := s } }
  | _ => d.saveError (.unmarshalType "text")

/-- One member of the object: stored into the field its key names, skipped
when it names none. -/
def storeMember (d : DecodeState) (kv : String × Json) : DecodeState :=
  if keyMatches kv.1 "id" then storeID d kv.2
  else if keyMatches kv.1 "text" then storeText d kv.2
  else d

/-- Decoding a JSON value into a zero `TextEntry`: members of an object in
the order written, `null` a no-op, any other value a type error. -/
def decodeEntry (j : Json) : DecodeState :=
  let d0 : DecodeState := { entry := { ID := 0, Text := "" }, err := none }
  match j with
  | .null => d0
  | .obj members => members.foldl storeMember d0
  | _ => d0.saveError (.unmarshalType "")

/-- The validator behind `binding:"required"`: the field `Text` must not be
the zero value. -/
def validateEntry (e : TextEntry) : Except BindError TextEntry :=
  if e.Text = "" then .error (.required "Text") else .ok e

/-- The call `c.ShouldBindJSON(&newEntry)`: decode the first value of the body,
and validate when the decode saved no error. -/
def ShouldBindJSON (body : Body) : Except BindError TextEntry :=
  match body.first with
  | none => .error .badJson
  | some j =>
    let d := decodeEntry j
    match d.err with
    | some e => .error e
    | none => validateEntry d.entry

/-! ## The database handle -/

/-- A value of a column or of a statement argument; the `texts` table has an
integer column and a text column. -/
inductive SqlValue where
  | int (n : Int)
  | text (s : String)
  deriving DecidableEq, Repr

/-- A parameterized statement as handed to `db.QueryRow`. -/
structure Stmt where
  query : String
  args : List SqlValue
  deriving DecidableEq, Repr

/-- Errors of `database/sql`: the sentinel `sql.ErrNoRows`, or any other
error with its detail. -/
inductive SqlError where
  | errNoRows
  | other (detail : String)
  deriving DecidableEq, Repr

/-- The method `Error()` of an error. -/
def SqlError.Error : SqlError → String
  | .errNoRows => "sql: no rows in result set"
  | .other detail => detail

/-- What a query leaves in a `*sql.Row`: an error, an empty result, or the
first row of the result. -/
abbrev RowResult := Except SqlError (Option (List SqlValue))

/-- The handle `*sql.DB` over a store with states `σ`: `QueryRow` runs one
statement, which may change the store. -/
structure Database (σ : Type) where
  queryRow : σ → Stmt → σ × RowResult

/-- The helper `asString` of `convertAssign`: a text as it is, an integer in
decimal. -/
def asString (v : SqlValue) : String :=
  match v with
  | .text s => s
  | .int n => Itoa n

/-- The name `%T` prints for a column value. -/
def driverTypeName (v : SqlValue) : String :=
  match v with
  | .text _ => "string"
  | .int _ => "int64"

/-- A lowercase hexadecimal digit. -/
def hexDigit (d : Nat) : Char :=
  if d % 16 < 10 then Char.ofNat (48 + d % 16) else Char.ofNat (87 + d % 16)

/-- One rune under `%q`: quote and backslash are escaped, the control bytes
of ASCII are written as `\a \b \t \n \v \f \r` or `\xhh`, printable ASCII is
kept. A rune beyond ASCII is kept as well (Go escapes those that are not
printable). -/
def quoteChar (c : Char) : List Char :=
  let n := c.toNat
  if n = 34 then [Char.ofNat 92, Char.ofNat 34]
  else if n = 92 then [Char.ofNat 92, Char.ofNat 92]
  else if n = 7 then [Char.ofNat 92, Char.ofNat 97]
  else if n = 8 then [Char.ofNat 92, Char.ofNat 98]
  else if n = 9 then [Char.ofNat 92, Char.ofNat 116]
  else if n = 10 then [Char.ofNat 92, Char.ofNat 110]
  else if n = 11 then [Char.ofNat 92, Char.ofNat 118]
  else if n = 12 then [Char.ofNat 92, Char.ofNat 102]
  else if n = 13 then [Char.ofNat 92, Char.ofNat 114]
  else if n < 32 ∨ n = 127 then [Char.ofNat 92, Char.ofNat 120, hexDigit (n / 16), hexDigit n]
  else [c]

/-- The verb `%q` on a string. -/
def goQuote (s : String) : String :=
  String.mk (Char.ofNat 34 :: (s.toList.flatMap quoteChar ++ [Char.ofNat 34]))

/-- The text of a `strconv` failure as `strconvErr` passes it on. -/
def NumError.Error : NumError → String
  | .errSyntax => "invalid syntax"
  | .errRange => "value out of range"

/-- Conversion of the first column, which both statements name `id`, into a
destination `*int` (`convertAssign`): the value is taken as a string and read
by `ParseInt`; a failure is reported by `Scan` with the column and the
value. -/
def scanIntColumn (v : SqlValue) : Except SqlError Int :=
  match parseInt (asString v).toList with
  | .ok n => .ok n
  | .error e =>
    .error (.other ("sql: Scan error on column index 0, name " ++ goQuote "id" ++
      ": converting driver.Value type " ++ driverTypeName v ++ " (" ++
      goQuote (asString v) ++ ") to a int: " ++ e.Error))

/-- Conversion of a column into a destination `*string`: the value as a
string. -/
def scanStringColumn (v : SqlValue) : String := asString v

/-- The text of `Scan` for a row whose number of columns is not the number of
destinations. -/
def scanCountError (columns dests : Nat) : SqlError :=
  .other ("sql: expected " ++ String.mk (formatNat columns) ++
    " destination arguments in Scan, not " ++ String.mk (formatNat dests))

/-- The call `row.Scan(&id)`: the query's error, `sql.ErrNoRows` for an empty
result, an error when the row has not exactly one column. -/
def scanId (r : RowResult) : Except SqlError Int :=
  match r with
  | .error e => .error e
  | .ok none => .error .errNoRows
  | .ok (some [v]) => scanIntColumn v
  | .ok (some cols) => .error (scanCountError cols.length 1)

/-- The call `row.Scan(&entry.ID, &entry.Text)`. -/
def scanEntry (r : RowResult) : Except SqlError TextEntry :=
  match r with
  | .error e => .error e
  | .ok none => .error .errNoRows
  | .ok (some [v, w]) =>
    match scanIntColumn v with
    | .error e => .error e
    | .ok n => .ok { ID := n, Text := scanStringColumn w }
  | .ok (some cols) => .error (scanCountError cols.length 2)

/-! ## The handlers -/

/-- A JSON response: status code and body. -/
structure Reply where
  status : Nat
  body : Json

/-- Everything a handler does with one request: the store it leaves, the
statements it issued in order, the lines it logged, and its response. -/
structure Outcome (σ : Type) where
  store : σ
  stmts : List Stmt
  logs : List String
  reply : Reply

/-- The constant `http.StatusOK`. -/
def StatusOK : Nat := 200
/-- The constant `http.StatusCreated`. -/
def StatusCreated : Nat := 201
/-- The constant `http.StatusBadRequest`. -/
def StatusBadRequest : Nat := 400
/-- The constant `http.StatusNotFound`. -/
def StatusNotFound : Nat := 404
/-- The constant `http.StatusInternalServerError`. -/
def StatusInternalServerError : Nat := 500

/-- The body `gin.H` with the single key `error`. -/
def errorBody (msg : String) : Json := .obj [("error", .str msg)]

/-- Statement text of `postText`. -/
def insertSQL : String := "INSERT INTO texts (content) VALUES ($1) RETURNING id"

/-- Statement text of `getText`. -/
def selectSQL : String := "SELECT id, content FROM texts WHERE id = $1"

/-- The statement `postText` issues for a text. -/
def insertStmt (text : String) : Stmt := { query := insertSQL, args := [.text text] }

/-- The statement `getText` issues for an id. -/
def selectStmt (id : Int) : Stmt := { query := selectSQL, args := [.int id] }

/-- The handler `postText`: bind the body, insert the text, answer with the
id the insert returns. -/
def postText {σ : Type} (db : Database σ) (st : σ) (body : Body) : Outcome σ :=
  match ShouldBindJSON body with
  | .error _ =>
    { store := st, stmts := [], logs := [],
      reply := ⟨StatusBadRequest, errorBody "Invalid request body or missing 'text' field"⟩ }
  | .ok newEntry =>
    let r := db.queryRow st (insertStmt newEntry.Text)
    match scanId r.2 with
    | .error err =>
      { store := r.1, stmts := [insertStmt newEntry.Text],
        logs := ["DB INSERT error: " ++ err.Error],
        reply := ⟨StatusInternalServerError, errorBody "Could not store text"⟩ }
    | .ok id =>
      { store := r.1, stmts := [insertStmt newEntry.Text], logs := [],
        reply := ⟨StatusCreated,
          .obj [("id", .num id), ("message", .str "Text stored successfully")]⟩ }

/-- The handler `getText`: parse the path parameter, select the row, answer
with the entry. -/
def getText {σ : Type} (db : Database σ) (st : σ) (idStr : String) : Outcome σ :=
  match Atoi idStr with
  | .error _ =>
    { store := st, stmts := [], logs := [],
      reply := ⟨StatusBadRequest, errorBody "Invalid ID format"⟩ }
  | .ok id =>
    let r := db.queryRow st (selectStmt id)
    match scanEntry r.2 with
    | .error err =>
      if err = SqlError.errNoRows then
        { store := r.1, stmts := [selectStmt id], logs := [],
          reply := ⟨StatusNotFound,
            errorBody ("Text with id " ++ Itoa id ++ " not found")⟩ }
      else
        { store := r.1, stmts := [selectStmt id],
          logs := ["DB SELECT error: " ++ err.Error],
          reply := ⟨StatusInternalServerError, errorBody "Could not retrieve text"⟩ }
    | .ok entry =>
      { store := r.1, stmts := [selectStmt id], logs := [],
        reply := ⟨StatusOK, .obj [("id", .num entry.ID), ("text", .str entry.Text)]⟩ }

/-! ## The `texts` table -/

/-- A row of `texts (id SERIAL PRIMARY KEY, content TEXT NOT NULL)`. -/
structure TextRow where
  id : Int
  content : String
  deriving DecidableEq, Repr

/-- State of the table: its rows in insertion order and the last value its
sequence handed out (`0` before the first). -/
structure Store where
  rows : List TextRow
  lastValue : Nat
  deriving DecidableEq, Repr

/-- Largest value of a `SERIAL` column and of its sequence. -/
def serialMax : Nat := 2147483647

/-- The table as `CREATE TABLE` leaves it. -/
def Store.empty : Store := { rows := [], lastValue := 0 }

/-- Some row of the table has this id. -/
def Store.hasId (st : Store) (n : Int) : Bool := st.rows.any (fun r => r.id == n)

/-- The insert: the sequence gives the next value, which becomes the id of
the new row and the result of `RETURNING id`. An exhausted sequence and a
value taken already (primary key) are errors; the sequence keeps a value it
gave out. -/
def Store.insert (st : Store) (content : String) : Store × RowResult :=
  let v := st.lastValue + 1
  if serialMax < v then
    (st, .error (.other "pq: nextval: reached maximum value of sequence"))
  else if st.hasId v then
    ({ st with lastValue := v },
      .error (.other "pq: duplicate key value violates unique constraint"))
  else
    ({ rows := st.rows ++ [{ id := v, content := content }], lastValue := v },
      .ok (some [.int v]))

/-- The select by primary key: the row with the id, when there is one. -/
def Store.select (st : Store) (n : Int) : RowResult :=
  match st.rows.find? (fun r => r.id == n) with
  | none => .ok none
  | some r => .ok (some [.int r.id, .text r.content])

/-- The handle over the `texts` table: it runs the two statements of the
handlers and refuses any other. -/
def textsDB : Database Store where
  queryRow st stmt :=
    if stmt.query = insertSQL then
      match stmt.args with
      | [.text s] => st.insert s
      | _ => (st, .error (.other "pq: wrong arguments"))
    else if stmt.query = selectSQL then
      match stmt.args with
      | [.int n] => (st, st.select n)
      | _ => (st, .error (.other "pq: wrong arguments"))
    else (st, .error (.other "pq: unknown statement"))

/-- Every id in the table came from the sequence. -/
def Store.consistent (st : Store) : Prop :=
  ∀ r ∈ st.rows, r.id ≤ (st.lastValue : Int)

/-! ## The storage initializer -/

/-- An error value of Go: a plain error, or one made by `fmt.Errorf` with
the verb `%w` around another error. -/
inductive GoError where
  | plain (msg : String)
  | wrapped (context : String) (cause : GoError)
  deriving DecidableEq, Repr

/-- The method `Error()`: `fmt.Errorf("context: %w", err)` prints the
context, a colon and the cause. -/
def GoError.Error : GoError → String
  | .plain msg => msg
  | .wrapped context cause => context ++ ": " ++ cause.Error

/-- The function `errors.Unwrap`. -/
def GoError.Unwrap : GoError → Option GoError
  | .plain _ => none
  | .wrapped _ cause => some cause

/-- What the outside world answers to `setupDatabase`: the value of
`DATABASE_URL` (empty when unset), and for a connection string the error, if
any, of `sql.Open`, of `db.Ping` and of `db.Exec` with a statement. -/
structure SetupEnv where
  databaseUrl : String
  sqlOpen : String → String → Option GoError
  ping : String → Option GoError
  exec : String → String → Option GoError

/-- A step `setupDatabase` attempts. -/
inductive SetupStep where
  | sqlOpen (driver connStr : String)
  | ping
  | exec (query : String)
  deriving DecidableEq, Repr

/-- What `setupDatabase` did: the steps it attempted in order, the lines it
logged, and the error it returned (`none` for `nil`). -/
structure SetupResult where
  steps : List SetupStep
  logs : List String
  err : Option GoError
  deriving DecidableEq, Repr

/-- The connection string used when `DATABASE_URL` is not set. -/
def defaultConnStr : String :=
  "user=postgres password=mysecretpassword dbname=simpleapp sslmode=disable port=1200"

/-- The statement that ensures the table. -/
def createTableSQL : String :=
  "\n\tCREATE TABLE IF NOT EXISTS texts (\n\t\tid SERIAL PRIMARY KEY,\n\t\tcontent TEXT NOT NULL\n\t);"

/-- The connection string `setupDatabase` settles on. -/
def connStrOf (env : SetupEnv) : String :=
  if env.databaseUrl = "" then defaultConnStr else env.databaseUrl

/-- The function `setupDatabase`: open, ping, ensure the table; the first
error is wrapped and returned. -/
def setupDatabase (env : SetupEnv) : SetupResult :=
  let logs0 : List String :=
    if env.databaseUrl = "" then ["DATABASE_URL not set, using default connection string."]
    else []
  let connStr := connStrOf env
  match env.sqlOpen "postgres" connStr with
  | some err =>
    { steps := [.sqlOpen "postgres" connStr], logs := logs0,
      err := some (.wrapped "error opening database" err) }
  | none =>
    match env.ping connStr with
    | some err =>
      { steps := [.sqlOpen "postgres" connStr, .ping], logs := logs0,
        err := some (.wrapped "error pinging database" err) }
    | none =>
      let logs1 := logs0 ++ ["Successfully connected to PostgreSQL!"]
      match env.exec connStr createTableSQL with
      | some err =>
        { steps := [.sqlOpen "postgres" connStr, .ping, .exec createTableSQL],
          logs := logs1, err := some (.wrapped "error creating table" err) }
      | none =>
        { steps := [.sqlOpen "postgres" connStr, .ping, .exec createTableSQL],
          logs := logs1 ++ ["Database table 'texts' ensured."], err := none }

/-! ## Notions the statements below use -/

/-- Value of a run of digit bytes read left to right, without any bound. -/
def digitsValue (ds : List Char) : Nat := ds.foldl (fun a c => a * 10 + digitVal c) 0

/-- The string is a decimal numeral of the integer: an optional sign and one
or more ASCII digits. -/
def IsDecimalOf (p : String) (n : Int) : Prop :=
  ∃ ds : List Char, ds ≠ [] ∧ (∀ c ∈ ds, isDigitChar c = true) ∧
    ((p.toList = ds ∧ n = (digitsValue ds : Int)) ∨
     (p.toList = '+' :: ds ∧ n = (digitsValue ds : Int)) ∨
     (p.toList = '-' :: ds ∧ n = -(digitsValue ds : Int)))

/-- The value a JSON object gives a field: that of the last member whose key
names the field, `none` when no member does. -/
def lastMember (field : String) (members : List (String × Json)) : Option Json :=
  ((members.filter (fun kv => keyMatches kv.1 field)).getLast?).map (fun kv => kv.2)

/-- A handle that answers every statement with the same result and never
changes its state. -/
def constDB (r : RowResult) : Database Unit where
  queryRow st _ := (st, r)

/-! ## Facts about the number conversions -/

theorem digitChar_isDigit (n : Nat) : isDigitChar (digitChar n) = true := by
  have h : n % 10 < 10 := Nat.mod_lt _ (by decide)
  unfold digitChar
  generalize n % 10 = d at h
  interval_cases d <;> rfl

theorem digitVal_digitChar (n : Nat) : digitVal (digitChar n) = n % 10 := by
  have h : n % 10 < 10 := Nat.mod_lt _ (by decide)
  unfold digitChar
  generalize n % 10 = d at h
  interval_cases d <;> rfl

theorem foldl_digits_append (ds : List Char) (c : Char) (a : Nat) :
    (ds ++ [c]).foldl (fun a c => a * 10 + digitVal c) a =
      (ds.foldl (fun a c => a * 10 + digitVal c) a) * 10 + digitVal c := by
  simp [List.foldl_append]

theorem formatDigits_spec (fuel : Nat) : ∀ (n : Nat) (acc : List Char), n < fuel →
    ∃ ds : List Char, formatDigits fuel n acc = ds ++ acc ∧ ds ≠ [] ∧
      (∀ c ∈ ds, isDigitChar c = true) ∧ digitsValue ds = n := by
  induction fuel with
  | zero => intro n acc h; omega
  | succ fuel ih =>
    intro n acc hn
    by_cases h0 : n / 10 = 0
    · refine ⟨[digitChar n], ?_, by simp, ?_, ?_⟩
      · simp [formatDigits, h0]
      · intro c hc
        simp only [List.mem_singleton] at hc
        subst hc
        exact digitChar_isDigit n
      · simp only [digitsValue, List.foldl_cons, List.foldl_nil, digitVal_digitChar]
        omega
    · obtain ⟨ds, hds, hne, hdig, hval⟩ := ih (n / 10) (digitChar n :: acc) (by omega)
      refine ⟨ds ++ [digitChar n], ?_, by simp, ?_, ?_⟩
      · simp [formatDigits, h0, hds]
      · intro c hc
        rcases List.mem_append.mp hc with hc | hc
        · exact hdig c hc
        · simp only [List.mem_singleton] at hc
          subst hc
          exact digitChar_isDigit n
      · unfold digitsValue at hval ⊢
        rw [foldl_digits_append, hval, digitVal_digitChar]
        omega

theorem formatNat_spec (n : Nat) :
    formatNat n ≠ [] ∧ (∀ c ∈ formatNat n, isDigitChar c = true) ∧
      digitsValue (formatNat n) = n := by
  obtain ⟨ds, hds, hne, hdig, hval⟩ := formatDigits_spec (n + 1) n [] (by omega)
  have : formatNat n = ds := by simp [formatNat, hds]
  rw [this]
  exact ⟨hne, hdig, hval⟩

theorem foldl_digits_ge (ds : List Char) : ∀ a : Nat,
    a ≤ ds.foldl (fun a c => a * 10 + digitVal c) a := by
  induction ds with
  | nil => intro a; simp
  | cons c cs ih =>
    intro a
    simp only [List.foldl_cons]
    have := ih (a * 10 + digitVal c)
    omega

theorem parseUintLoop_digits (ds : List Char) : ∀ a : Nat,
    (∀ c ∈ ds, isDigitChar c = true) →
    ds.foldl (fun a c => a * 10 + digitVal c) a ≤ maxUint64 →
    parseUintLoop a ds = .ok (ds.foldl (fun a c => a * 10 + digitVal c) a) := by
  induction ds with
  | nil => intro a _ _; rfl
  | cons c cs ih =>
    intro a hdig hle
    simp only [List.foldl_cons] at hle ⊢
    have hc : isDigitChar c = true := hdig c (List.mem_cons_self _ _)
    have hge := foldl_digits_ge cs (a * 10 + digitVal c)
    have h1 : ¬ cutoff10 ≤ a := by
      simp only [cutoff10, maxUint64] at *
      omega
    have h2 : ¬ maxUint64 < a * 10 + digitVal c := by omega
    simp only [parseUintLoop, hc, if_true, h1, if_false, h2]
    exact ih _ (fun c hc => hdig c (List.mem_cons_of_mem _ hc)) hle

theorem parseUintLoop_ok (ds : List Char) : ∀ (a v : Nat),
    parseUintLoop a ds = .ok v →
    (∀ c ∈ ds, isDigitChar c = true) ∧
      v = ds.foldl (fun a c => a * 10 + digitVal c) a := by
  induction ds with
  | nil =>
    intro a v h
    simp only [parseUintLoop, Except.ok.injEq] at h
    simp [h]
  | cons c cs ih =>
    intro a v h
    by_cases hc : isDigitChar c = true
    · by_cases h1 : cutoff10 ≤ a
      · simp [parseUintLoop, hc, h1] at h
      · by_cases h2 : maxUint64 < a * 10 + digitVal c
        · simp [parseUintLoop, hc, h1, h2] at h
        · simp only [parseUintLoop, hc, if_true, h1, if_false, h2] at h
          obtain ⟨hd, hv⟩ := ih _ _ h
          refine ⟨?_, ?_⟩
          · intro x hx
            rcases List.mem_cons.mp hx with hx | hx
            · rw [hx]; exact hc
            · exact hd x hx
          · simpa using hv
    · simp [parseUintLoop, hc] at h

theorem digit_not_sign (c : Char) (h : isDigitChar c = true) :
    (c == '+') = false ∧ (c == '-') = false := by
  constructor
  · by_contra hc
    simp only [Bool.not_eq_false, beq_iff_eq] at hc
    subst hc
    simp [isDigitChar] at h
  · by_contra hc
    simp only [Bool.not_eq_false, beq_iff_eq] at hc
    subst hc
    simp [isDigitChar] at h

theorem parseUint_digits (ds : List Char) (hne : ds ≠ [])
    (hdig : ∀ c ∈ ds, isDigitChar c = true) (hle : digitsValue ds ≤ maxUint64) :
    parseUint ds = .ok (digitsValue ds) := by
  cases ds with
  | nil => exact absurd rfl hne
  | cons c cs => exact parseUintLoop_digits (c :: cs) 0 hdig hle

theorem parseInt_unsigned (ds : List Char) (hne : ds ≠ [])
    (hdig : ∀ c ∈ ds, isDigitChar c = true) (hle : (digitsValue ds : Int) ≤ maxInt) :
    parseInt ds = .ok (digitsValue ds : Int) := by
  have hu : parseUint ds = .ok (digitsValue ds) :=
    parseUint_digits ds hne hdig (by simp only [maxInt, intSize, maxUint64] at *; omega)
  cases ds with
  | nil => exact absurd rfl hne
  | cons c cs =>
    obtain ⟨hp, hm⟩ := digit_not_sign c (hdig c (List.mem_cons_self _ _))
    have hlt : ¬ (2 ^ (intSize - 1) ≤ digitsValue (c :: cs)) := by
      simp only [maxInt, intSize] at *; omega
    simp [parseInt, hp, hm, hu, hlt]

theorem parseInt_plus (ds : List Char) (hne : ds ≠ [])
    (hdig : ∀ c ∈ ds, isDigitChar c = true) (hle : (digitsValue ds : Int) ≤ maxInt) :
    parseInt ('+' :: ds) = .ok (digitsValue ds : Int) := by
  have hu : parseUint ds = .ok (digitsValue ds) :=
    parseUint_digits ds hne hdig (by simp only [maxInt, intSize, maxUint64] at *; omega)
  have hlt : ¬ (2 ^ (intSize - 1) ≤ digitsValue ds) := by
    simp only [maxInt, intSize] at *; omega
  simp [parseInt, hu, hlt]

theorem parseInt_minus (ds : List Char) (hne : ds ≠ [])
    (hdig : ∀ c ∈ ds, isDigitChar c = true) (hle : minInt ≤ -(digitsValue ds : Int)) :
    parseInt ('-' :: ds) = .ok (-(digitsValue ds : Int)) := by
  have hu : parseUint ds = .ok (digitsValue ds) :=
    parseUint_digits ds hne hdig (by simp only [minInt, intSize, maxUint64] at *; omega)
  have hlt : ¬ (2 ^ (intSize - 1) < digitsValue ds) := by
    simp only [minInt, intSize] at *; omega
  simp [parseInt, hu, hlt]

/-- Reading back a rendered `int` gives the `int`. -/
theorem Atoi_Itoa (n : Int) (h : inIntRange n) : Atoi (Itoa n) = .ok n := by
  cases n with
  | ofNat m =>
    obtain ⟨hne, hdig, hval⟩ := formatNat_spec m
    have := parseInt_unsigned (formatNat m) hne hdig (by rw [hval]; exact h.2)
    simpa [Atoi, Itoa, hval] using this
  | negSucc m =>
    obtain ⟨hne, hdig, hval⟩ := formatNat_spec (m + 1)
    have := parseInt_minus (formatNat (m + 1)) hne hdig (by
      rw [hval]; have := h.1; simpa [Int.negSucc_eq] using this)
    simpa [Atoi, Itoa, hval, Int.negSucc_eq] using this

theorem parseUint_ok (ds : List Char) (v : Nat) (h : parseUint ds = .ok v) :
    ds ≠ [] ∧ (∀ c ∈ ds, isDigitChar c = true) ∧ v = digitsValue ds := by
  cases ds with
  | nil => simp [parseUint] at h
  | cons c cs =>
    obtain ⟨hd, hv⟩ := parseUintLoop_ok (c :: cs) 0 v h
    exact ⟨by simp, hd, hv⟩

theorem parseInt_ok (l : List Char) (n : Int) (h : parseInt l = .ok n) :
    (∃ ds : List Char, ds ≠ [] ∧ (∀ c ∈ ds, isDigitChar c = true) ∧
      ((l = ds ∧ n = (digitsValue ds : Int)) ∨
       (l = '+' :: ds ∧ n = (digitsValue ds : Int)) ∨
       (l = '-' :: ds ∧ n = -(digitsValue ds : Int)))) ∧ inIntRange n := by
  cases l with
  | nil => simp [parseInt] at h
  | cons c cs =>
    by_cases hm : c = '-'
    · subst hm
      cases hu : parseUint cs with
      | error e => simp [parseInt, hu] at h
      | ok un =>
        obtain ⟨hne, hdig, hv⟩ := parseUint_ok cs un hu
        by_cases hlt : 2 ^ (intSize - 1) < un
        · simp [parseInt, hu, hlt] at h
        · simp [parseInt, hu, hlt] at h
          subst h
          refine ⟨⟨cs, hne, hdig, Or.inr (Or.inr ⟨rfl, by rw [hv]⟩)⟩, ?_⟩
          simp only [inIntRange, minInt, maxInt, intSize] at *
          omega
    · by_cases hp : c = '+'
      · subst hp
        cases hu : parseUint cs with
        | error e => simp [parseInt, hu] at h
        | ok un =>
          obtain ⟨hne, hdig, hv⟩ := parseUint_ok cs un hu
          by_cases hlt : 2 ^ (intSize - 1) ≤ un
          · simp [parseInt, hu, hlt] at h
          · simp [parseInt, hu, hlt] at h
            subst h
            refine ⟨⟨cs, hne, hdig, Or.inr (Or.inl ⟨rfl, by rw [hv]⟩)⟩, ?_⟩
            simp only [inIntRange, minInt, maxInt, intSize] at *
            omega
      · cases hu : parseUint (c :: cs) with
        | error e => simp [parseInt, hm, hp, hu] at h
        | ok un =>
          obtain ⟨hne, hdig, hv⟩ := parseUint_ok (c :: cs) un hu
          by_cases hlt : 2 ^ (intSize - 1) ≤ un
          · simp [parseInt, hm, hp, hu, hlt] at h
          · simp [parseInt, hm, hp, hu, hlt] at h
            subst h
            refine ⟨⟨c :: cs, hne, hdig, Or.inl ⟨rfl, by rw [hv]⟩⟩, ?_⟩
            simp only [inIntRange, minInt, maxInt, intSize] at *
            omega

/-- What `Atoi` accepts: exactly the decimal numerals of the values of `int`. -/
theorem Atoi_ok_iff (p : String) (n : Int) :
    Atoi p = .ok n ↔ IsDecimalOf p n ∧ inIntRange n := by
  constructor
  · intro h
    exact parseInt_ok p.toList n h
  · rintro ⟨⟨ds, hne, hdig, h | h | h⟩, hr⟩
    · rw [Atoi, h.1, h.2]
      exact parseInt_unsigned ds hne hdig (by rw [← h.2]; exact hr.2)
    · rw [Atoi, h.1, h.2]
      exact parseInt_plus ds hne hdig (by rw [← h.2]; exact hr.2)
    · rw [Atoi, h.1, h.2]
      exact parseInt_minus ds hne hdig (by rw [← h.2]; exact hr.1)

/-! ## Facts about the binding -/

theorem keyMatches_id_not_text (k : String) (h : keyMatches k "id" = true) :
    keyMatches k "text" = false := by
  simp only [keyMatches, beq_iff_eq] at h
  simp only [keyMatches, h]
  rfl

theorem saveError_entry (d : DecodeState) (e : BindError) : (d.saveError e).entry = d.entry := by
  unfold DecodeState.saveError
  cases d.err <;> rfl

theorem storeID_text (d : DecodeState) (v : Json) : (storeID d v).entry.Text = d.entry.Text := by
  cases v <;> simp only [storeID, saveError_entry]
  split
  · rfl
  · rw [saveError_entry]

theorem storeMember_text_of_other (d : DecodeState) (kv : String × Json)
    (h : keyMatches kv.1 "text" = false) : (storeMember d kv).entry.Text = d.entry.Text := by
  unfold storeMember
  by_cases hid : keyMatches kv.1 "id" = true
  · simp only [hid, if_true]
    exact storeID_text d kv.2
  · simp [hid, h]

theorem lastMember_append (field : String) (ms : List (String × Json)) (kv : String × Json) :
    lastMember field (ms ++ [kv]) =
      if keyMatches kv.1 field then some kv.2 else lastMember field ms := by
  unfold lastMember
  by_cases h : keyMatches kv.1 field = true
  · simp [List.filter_append, h]
  · simp [List.filter_append, h]

/-- An object that gives `text` no value, or the empty string, leaves the
field `Text` empty. -/
theorem decode_text_empty (members : List (String × Json)) (d0 : DecodeState)
    (h0 : d0.entry.Text = "")
    (h : lastMember "text" members = none ∨ lastMember "text" members = some (.str "")) :
    (members.foldl storeMember d0).entry.Text = "" := by
  induction members using List.reverseRecOn with
  | nil => simpa using h0
  | append_singleton ms kv ih =>
    rw [List.foldl_append, List.foldl_cons, List.foldl_nil]
    rw [lastMember_append] at h
    by_cases hk : keyMatches kv.1 "text" = true
    · simp only [hk, if_true] at h
      have hv : kv.2 = .str "" := by
        rcases h with h | h
        · simp at h
        · simpa using h
      have hid : ¬ keyMatches kv.1 "id" = true := by
        intro hid
        rw [keyMatches_id_not_text _ hid] at hk
        exact Bool.false_ne_true hk
      simp [storeMember, hid, hk, hv, storeText]
    · have hk' : keyMatches kv.1 "text" = false := by simpa using hk
      simp only [hk', Bool.false_eq_true, if_false] at h
      rw [storeMember_text_of_other _ _ hk']
      exact ih h

theorem validateEntry_ok (e e' : TextEntry) (h : validateEntry e = .ok e') :
    e' = e ∧ e.Text ≠ "" := by
  unfold validateEntry at h
  by_cases ht : e.Text = ""
  · simp [ht] at h
  · simp only [ht, if_false, Except.ok.injEq] at h
    exact ⟨h.symm, ht⟩

/-- A body that binds has a non-empty text. -/
theorem bind_ok_text_ne (body : Body) (e : TextEntry) (h : ShouldBindJSON body = .ok e) :
    e.Text ≠ "" := by
  cases hf : body.first with
  | none => simp [ShouldBindJSON, hf] at h
  | some j =>
    simp only [ShouldBindJSON, hf] at h
    split at h
    · simp at h
    · obtain ⟨he, hne⟩ := validateEntry_ok _ _ h
      rw [he]; exact hne

/-- Binding looks at the first value of the body only. -/
theorem bind_first (b₁ b₂ : Body) (h : b₁.first = b₂.first) :
    ShouldBindJSON b₁ = ShouldBindJSON b₂ := by
  simp only [ShouldBindJSON, h]

/-- The body with the single member `text` binds to that text. -/
theorem bind_text_only (s : String) (hs : s ≠ "") :
    ShouldBindJSON (.value (.obj [("text", .str s)])) = .ok { ID := 0, Text := s } := by
  have h1 : keyMatches "text" "id" = false := by rfl
  have h2 : keyMatches "text" "text" = true := by rfl
  simp [ShouldBindJSON, Body.first, decodeEntry, storeMember, h1, h2, storeText, validateEntry,
    hs]

/-- The body with an `id` within `int` and a `text` binds to both. -/
theorem bind_id_text (a : Int) (s : String) (ha : inIntRange a) (hs : s ≠ "") :
    ShouldBindJSON (.value (.obj [("id", .num a), ("text", .str s)])) =
      .ok { ID := a, Text := s } := by
  have h0 : keyMatches "id" "id" = true := by rfl
  have h1 : keyMatches "text" "id" = false := by rfl
  have h2 : keyMatches "text" "text" = true := by rfl
  simp [ShouldBindJSON, Body.first, decodeEntry, storeMember, h0, h1, h2, storeText, storeID,
    ha, validateEntry, hs]

/-- The body whose binding fails is answered 400 without touching the store. -/
theorem postText_of_bind_error {σ : Type} (db : Database σ) (st : σ) (body : Body)
    (e : BindError) (h : ShouldBindJSON body = .error e) :
    postText db st body =
      { store := st, stmts := [], logs := [],
        reply := ⟨StatusBadRequest,
          errorBody "Invalid request body or missing 'text' field"⟩ } := by
  simp [postText, h]

/-! ## Facts about the `texts` table -/

theorem textsDB_insert (st : Store) (s : String) :
    textsDB.queryRow st (insertStmt s) = st.insert s := by
  simp [textsDB, insertStmt]

theorem textsDB_select (st : Store) (n : Int) :
    textsDB.queryRow st (selectStmt n) = (st, st.select n) := by
  have h : ¬ selectSQL = insertSQL := by decide
  simp [textsDB, selectStmt, h]

theorem serial_inIntRange (v : Nat) (h : v ≤ serialMax) : inIntRange (v : Int) := by
  simp only [inIntRange, minInt, maxInt, intSize, serialMax] at *
  omega

/-- In a consistent table the next value of the sequence is the id of no row. -/
theorem consistent_next_free (st : Store) (hc : st.consistent) :
    st.hasId ((st.lastValue + 1 : Nat) : Int) = false := by
  simp only [Store.hasId, List.any_eq_false, beq_iff_eq]
  intro r hr heq
  have := hc r hr
  rw [heq] at this
  push_cast at this
  omega

/-- An insert with room in the sequence and a free next value appends the row
and returns its id. -/
theorem insert_ok (st : Store) (s : String) (hroom : st.lastValue < serialMax)
    (hfree : st.hasId ((st.lastValue + 1 : Nat) : Int) = false) :
    st.insert s =
      ({ rows := st.rows ++ [{ id := ((st.lastValue + 1 : Nat) : Int), content := s }],
         lastValue := st.lastValue + 1 },
        .ok (some [.int ((st.lastValue + 1 : Nat) : Int)])) := by
  have h1 : ¬ serialMax < st.lastValue + 1 := by omega
  simp only [Store.insert, h1, if_false, hfree]
  simp

/-- The table stays consistent under an insert. -/
theorem insert_consistent (st : Store) (s : String) (hc : st.consistent) :
    (st.insert s).1.consistent := by
  unfold Store.insert
  by_cases h1 : serialMax < st.lastValue + 1
  · simpa [h1] using hc
  · by_cases h2 : st.hasId ((st.lastValue + 1 : Nat) : Int) = true
    · simp only [h1, if_false, h2, if_true]
      intro r hr
      have := hc r hr
      show r.id ≤ ((st.lastValue + 1 : Nat) : Int)
      push_cast
      omega
    · simp only [h1, if_false, h2]
      intro r hr
      show r.id ≤ ((st.lastValue + 1 : Nat) : Int)
      have hr' : r ∈ st.rows ++ [{ id := ((st.lastValue + 1 : Nat) : Int), content := s }] := hr
      rcases List.mem_append.mp hr' with hr | hr
      · have := hc r hr
        push_cast
        omega
      · rw [List.mem_singleton] at hr
        rw [hr]

/-- A select finds the row appended last when no earlier row has its id. -/
theorem select_appended (rows : List TextRow) (lv : Nat) (v : Int) (s : String)
    (hfree : rows.any (fun r => r.id == v) = false) :
    Store.select { rows := rows ++ [{ id := v, content := s }], lastValue := lv } v =
      .ok (some [.int v, .text s]) := by
  have hnone : rows.find? (fun r => r.id == v) = none := by
    rw [List.find?_eq_none]
    intro r hr
    simp only [List.any_eq_false, beq_iff_eq] at hfree
    simpa using hfree r hr
  simp [Store.select, List.find?_append, hnone]

/-- A select of an id no row has finds nothing. -/
theorem select_absent (st : Store) (n : Int) (h : st.hasId n = false) :
    st.select n = .ok none := by
  have hnone : st.rows.find? (fun r => r.id == n) = none := by
    rw [List.find?_eq_none]
    intro r hr
    simp only [Store.hasId, List.any_eq_false, beq_iff_eq] at h
    simpa using h r hr
  simp [Store.select, hnone]

/-! ## Facts about the scans -/

/-- An integer column within `int` is scanned as it is. -/
theorem scanIntColumn_int (n : Int) (h : inIntRange n) : scanIntColumn (.int n) = .ok n := by
  have hp : parseInt (Itoa n).toList = .ok n := Atoi_Itoa n h
  simp only [scanIntColumn, asString, hp]

/-- A failed conversion of a column is never `sql.ErrNoRows`. -/
theorem scanIntColumn_error (v : SqlValue) (e : SqlError) (h : scanIntColumn v = .error e) :
    e ≠ .errNoRows := by
  unfold scanIntColumn at h
  split at h
  · simp at h
  · simp only [Except.error.injEq] at h
    rw [← h]
    simp

/-! ## Facts about the handlers -/

/-- A body that binds and an insert that returns an id: 201 with the id. -/
theorem postText_created {σ : Type} (db : Database σ) (st st' : σ) (body : Body)
    (e : TextEntry) (i : Int) (hb : ShouldBindJSON body = .ok e)
    (hq : db.queryRow st (insertStmt e.Text) = (st', .ok (some [.int i])))
    (hi : inIntRange i) :
    postText db st body =
      { store := st', stmts := [insertStmt e.Text], logs := [],
        reply := ⟨StatusCreated,
          .obj [("id", .num i), ("message", .str "Text stored successfully")]⟩ } := by
  simp [postText, hb, hq, scanId, scanIntColumn_int i hi]

/-- A path parameter that parses and a select that returns a row: 200 with
the row. -/
theorem getText_found {σ : Type} (db : Database σ) (st st' : σ) (idStr : String)
    (id i : Int) (s : String) (hp : Atoi idStr = .ok id)
    (hq : db.queryRow st (selectStmt id) = (st', .ok (some [.int i, .text s])))
    (hi : inIntRange i) :
    getText db st idStr =
      { store := st', stmts := [selectStmt id], logs := [],
        reply := ⟨StatusOK, .obj [("id", .num i), ("text", .str s)]⟩ } := by
  simp [getText, hp, hq, scanEntry, scanIntColumn_int i hi, scanStringColumn, asString]

/-- A path parameter that parses and a select that finds no row: 404 naming
the id. -/
theorem getText_absent {σ : Type} (db : Database σ) (st st' : σ) (idStr : String)
    (id : Int) (hp : Atoi idStr = .ok id)
    (hq : db.queryRow st (selectStmt id) = (st', .ok none)) :
    getText db st idStr =
      { store := st', stmts := [selectStmt id], logs := [],
        reply := ⟨StatusNotFound, errorBody ("Text with id " ++ Itoa id ++ " not found")⟩ } := by
  simp [getText, hp, hq, scanEntry]

/-- A path parameter that does not parse: 400 without a statement. -/
theorem getText_of_parse_error {σ : Type} (db : Database σ) (st : σ) (idStr : String)
    (e : NumError) (h : Atoi idStr = .error e) :
    getText db st idStr =
      { store := st, stmts := [], logs := [],
        reply := ⟨StatusBadRequest, errorBody "Invalid ID format"⟩ } := by
  simp [getText, h]

/-- A body that binds and an insert that returns an error: 500 with the
fixed body, the error in the log. -/
theorem postText_insert_failed {σ : Type} (db : Database σ) (st : σ) (body : Body)
    (e : TextEntry) (err : SqlError) (hb : ShouldBindJSON body = .ok e)
    (hq : (db.queryRow st (insertStmt e.Text)).2 = .error err) :
    (postText db st body).reply =
        ⟨StatusInternalServerError, .obj [("error", .str "Could not store text")]⟩ ∧
      (postText db st body).logs = ["DB INSERT error: " ++ err.Error] := by
  simp [postText, hb, hq, scanId, errorBody]

/-- The scan of two columns reports `sql.ErrNoRows` only for an empty result
or for that very error of the query. -/
theorem scanEntry_noRows (r : RowResult) (h : scanEntry r = .error .errNoRows) :
    r = .ok none ∨ r = .error .errNoRows := by
  unfold scanEntry at h
  split at h
  · simp only [Except.error.injEq] at h
    rw [h]
    exact Or.inr rfl
  · exact Or.inl rfl
  · rename_i v w
    cases hv : scanIntColumn v with
    | ok n => simp [hv] at h
    | error e =>
      simp only [hv, Except.error.injEq] at h
      exact absurd h (scanIntColumn_error v e hv)
  · simp [scanCountError] at h

/-- A path parameter that parses leads to the select for its value and to no
other statement. -/
theorem getText_stmts {σ : Type} (db : Database σ) (st : σ) (idStr : String) (id : Int)
    (hp : Atoi idStr = .ok id) : (getText db st idStr).stmts = [selectStmt id] := by
  simp only [getText, hp]
  split
  · split <;> rfl
  · rfl

/-- Two bodies that bind to the same text get the same treatment. -/
theorem postText_congr {σ : Type} (db : Database σ) (st : σ) (b₁ b₂ : Body)
    (e₁ e₂ : TextEntry) (h₁ : ShouldBindJSON b₁ = .ok e₁) (h₂ : ShouldBindJSON b₂ = .ok e₂)
    (ht : e₁.Text = e₂.Text) : postText db st b₁ = postText db st b₂ := by
  simp [postText, h₁, h₂, ht]

/-- A body that binds leads to the insert of its text and to no other
statement. -/
theorem postText_stmts {σ : Type} (db : Database σ) (st : σ) (body : Body) (e : TextEntry)
    (hb : ShouldBindJSON body = .ok e) : (postText db st body).stmts = [insertStmt e.Text] := by
  simp only [postText, hb]
  split <;> rfl

/-- The handlers keep the table consistent: `postText` changes it by an insert
at most. -/
theorem postText_consistent (st : Store) (body : Body) (hc : st.consistent) :
    (postText textsDB st body).store.consistent := by
  cases hb : ShouldBindJSON body with
  | error e => rw [postText_of_bind_error textsDB st body e hb]; exact hc
  | ok e =>
    have hstore : (postText textsDB st body).store = (st.insert e.Text).1 := by
      simp only [postText, hb, textsDB_insert]
      split <;> rfl
    rw [hstore]
    exact insert_consistent st e.Text hc

/-- The handler `getText` leaves the table as it is. -/
theorem getText_store (st : Store) (idStr : String) :
    (getText textsDB st idStr).store = st := by
  cases hp : Atoi idStr with
  | error e => rw [getText_of_parse_error textsDB st idStr e hp]
  | ok id =>
    simp only [getText, hp, textsDB_select]
    split
    · split <;> rfl
    · rfl

/-! ## The claims -/

/-- C1: round trip over the `texts` table. In every state of the table whose
ids came from its sequence and whose sequence has a value left (the states
in which the insert assigns an id), and for every non-empty string `s`,
`postText` given the body with the single member `text` = `s` answers 201
with an id `i` that no row had before, and `getText` run on the resulting
store with the decimal rendering of `i` answers 200 with exactly the entry
of id `i` and text `s`. -/
theorem C1_create_then_get_roundtrip (st : Store) (s : String) (hs : s ≠ "")
    (hc : st.consistent) (hroom : st.lastValue < serialMax) :
    ∃ i : Int, st.hasId i = false ∧
      (postText textsDB st (.value (.obj [("text", .str s)]))).reply =
        ⟨StatusCreated, .obj [("id", .num i), ("message", .str "Text stored successfully")]⟩ ∧
      (getText textsDB (postText textsDB st (.value (.obj [("text", .str s)]))).store
          (Itoa i)).reply =
        ⟨StatusOK, .obj [("id", .num i), ("text", .str s)]⟩ := by
  have hfree := consistent_next_free st hc
  have hr : inIntRange ((st.lastValue + 1 : Nat) : Int) := serial_inIntRange _ (by omega)
  have hins : textsDB.queryRow st (insertStmt s) = _ :=
    (textsDB_insert st s).trans (insert_ok st s hroom hfree)
  have hpost := postText_created textsDB st _ _ _ _ (bind_text_only s hs) hins hr
  have hsel := select_appended st.rows (st.lastValue + 1) ((st.lastValue + 1 : Nat) : Int) s hfree
  have hget := getText_found textsDB _ _ (Itoa ((st.lastValue + 1 : Nat) : Int)) _ _ s
    (Atoi_Itoa _ hr) ((textsDB_select _ _).trans (by rw [hsel])) hr
  refine ⟨((st.lastValue + 1 : Nat) : Int), hfree, ?_, ?_⟩
  · rw [hpost]
  · rw [hpost, hget]

/-- Witness of C1 on the empty table and on a table of two rows, with the
text `hello`. -/
theorem C1_create_then_get_roundtrip_witness :
    (∃ i : Int, Store.empty.hasId i = false ∧
      (postText textsDB Store.empty (.value (.obj [("text", .str "hello")]))).reply =
        ⟨StatusCreated, .obj [("id", .num i), ("message", .str "Text stored successfully")]⟩ ∧
      (getText textsDB
          (postText textsDB Store.empty (.value (.obj [("text", .str "hello")]))).store
          (Itoa i)).reply =
        ⟨StatusOK, .obj [("id", .num i), ("text", .str "hello")]⟩) ∧
    (∃ i : Int,
      Store.hasId { rows := [{ id := 1, content := "a" }, { id := 2, content := "b" }],
                    lastValue := 2 } i = false ∧
      (postText textsDB
          { rows := [{ id := 1, content := "a" }, { id := 2, content := "b" }], lastValue := 2 }
          (.value (.obj [("text", .str "hello")]))).reply =
        ⟨StatusCreated, .obj [("id", .num i), ("message", .str "Text stored successfully")]⟩ ∧
      (getText textsDB
          (postText textsDB
            { rows := [{ id := 1, content := "a" }, { id := 2, content := "b" }],
              lastValue := 2 }
            (.value (.obj [("text", .str "hello")]))).store
          (Itoa i)).reply =
        ⟨StatusOK, .obj [("id", .num i), ("text", .str "hello")]⟩) :=
  ⟨C1_create_then_get_roundtrip Store.empty "hello" (by decide)
      (by intro r hr; simp [Store.empty] at hr) (by decide),
   C1_create_then_get_roundtrip
      { rows := [{ id := 1, content := "a" }, { id := 2, content := "b" }], lastValue := 2 }
      "hello" (by decide)
      (by
        intro r hr
        simp only [List.mem_cons, List.mem_singleton, List.not_mem_nil, or_false] at hr
        rcases hr with hr | hr <;> subst hr <;> decide)
      (by decide)⟩

/-- C2 as stated fails: the body `text: x` followed by further bytes is
malformed JSON, yet `postText` binds its first value, inserts the text and
answers 201, not 400. -/
theorem C2_counterexample :
    (Body.valueThen (.obj [("text", .str "x")]) " trailing garbage").isMalformed = true ∧
    postText textsDB Store.empty
        (.valueThen (.obj [("text", .str "x")]) " trailing garbage") =
      { store := { rows := [{ id := 1, content := "x" }], lastValue := 1 },
        stmts := [{ query := insertSQL, args := [.text "x"] }], logs := [],
        reply := ⟨StatusCreated,
          .obj [("id", .num 1), ("message", .str "Text stored successfully")]⟩ } ∧
    (postText textsDB Store.empty
        (.valueThen (.obj [("text", .str "x")]) " trailing garbage")).reply.status ≠
      StatusBadRequest :=
  ⟨rfl, rfl, by decide⟩

/-- C2, amended: for every request body at whose start the decoder finds no
well-formed JSON value, or whose first value is a JSON object in which no
member names the field `text`, or in which the last member that names it is
the empty string, `postText` answers 400 with the body
`error: Invalid request body or missing 'text' field`, issues no storage
statement and leaves the store unchanged; and a body with further bytes after
its first value is handled as that value alone. -/
theorem C2_invalid_body_rejected {σ : Type} (db : Database σ) (st : σ) (body : Body) :
    ((body.first = none ∨ ∃ members, body.first = some (.obj members) ∧
        (lastMember "text" members = none ∨ lastMember "text" members = some (.str ""))) →
      postText db st body =
        { store := st, stmts := [], logs := [],
          reply := ⟨StatusBadRequest,
            .obj [("error", .str "Invalid request body or missing 'text' field")]⟩ }) ∧
    (∀ j rest, body = .valueThen j rest → postText db st body = postText db st (.value j)) := by
  constructor
  · intro h
    have hbind : ∃ e, ShouldBindJSON body = .error e := by
      rcases h with h | ⟨members, hb, hm⟩
      · exact ⟨.badJson, by simp [ShouldBindJSON, h]⟩
      · have ht := decode_text_empty members { entry := { ID := 0, Text := "" }, err := none }
          rfl hm
        simp only [ShouldBindJSON, hb, decodeEntry]
        cases herr : (members.foldl storeMember
            { entry := { ID := 0, Text := "" }, err := none }).err with
        | some e => exact ⟨e, rfl⟩
        | none => exact ⟨.required "Text", by simp [validateEntry, ht]⟩
    obtain ⟨e, he⟩ := hbind
    exact postText_of_bind_error db st body e he
  · intro j rest hb
    subst hb
    have hbf : ShouldBindJSON (.valueThen j rest) = ShouldBindJSON (.value j) :=
      bind_first _ _ rfl
    simp only [postText, hbf]

/-- Witness of C2: a body without a value, the empty object, an object with
an empty `text`, and the empty object followed by further bytes, on the empty
table. -/
theorem C2_invalid_body_rejected_witness :
    postText textsDB Store.empty .noValue =
      { store := Store.empty, stmts := [], logs := [],
        reply := ⟨StatusBadRequest,
          .obj [("error", .str "Invalid request body or missing 'text' field")]⟩ } ∧
    postText textsDB Store.empty (.value (.obj [])) =
      { store := Store.empty, stmts := [], logs := [],
        reply := ⟨StatusBadRequest,
          .obj [("error", .str "Invalid request body or missing 'text' field")]⟩ } ∧
    postText textsDB Store.empty (.value (.obj [("text", .str "")])) =
      { store := Store.empty, stmts := [], logs := [],
        reply := ⟨StatusBadRequest,
          .obj [("error", .str "Invalid request body or missing 'text' field")]⟩ } ∧
    postText textsDB Store.empty (.valueThen (.obj []) "x") =
      { store := Store.empty, stmts := [], logs := [],
        reply := ⟨StatusBadRequest,
          .obj [("error", .str "Invalid request body or missing 'text' field")]⟩ } ∧
    postText textsDB Store.empty (.valueThen (.obj [("text", .str "x")]) "y") =
      postText textsDB Store.empty (.value (.obj [("text", .str "x")])) :=
  ⟨(C2_invalid_body_rejected textsDB Store.empty .noValue).1 (Or.inl rfl),
   (C2_invalid_body_rejected textsDB Store.empty (.value (.obj []))).1
     (Or.inr ⟨[], rfl, Or.inl rfl⟩),
   (C2_invalid_body_rejected textsDB Store.empty (.value (.obj [("text", .str "")]))).1
     (Or.inr ⟨[("text", .str "")], rfl, Or.inr rfl⟩),
   (C2_invalid_body_rejected textsDB Store.empty (.valueThen (.obj []) "x")).1
     (Or.inr ⟨[], rfl, Or.inl rfl⟩),
   (C2_invalid_body_rejected textsDB Store.empty
     (.valueThen (.obj [("text", .str "x")]) "y")).2 _ _ rfl⟩

/-- C3: for every path parameter that `strconv.Atoi` does not parse as an
integer, `getText` answers 400 with the body `error: Invalid ID format`,
issues no storage statement and leaves the store unchanged. -/
theorem C3_unparsed_id_rejected {σ : Type} (db : Database σ) (st : σ) (idStr : String)
    (e : NumError) (h : Atoi idStr = .error e) :
    getText db st idStr =
      { store := st, stmts := [], logs := [],
        reply := ⟨StatusBadRequest, .obj [("error", .str "Invalid ID format")]⟩ } :=
  getText_of_parse_error db st idStr e h

/-- Witness of C3: the path parameters `abc`, the empty string, `1.5` and a
digit string beyond `int`. -/
theorem C3_unparsed_id_rejected_witness :
    getText textsDB Store.empty "abc" =
      { store := Store.empty, stmts := [], logs := [],
        reply := ⟨StatusBadRequest, .obj [("error", .str "Invalid ID format")]⟩ } ∧
    getText textsDB Store.empty "" =
      { store := Store.empty, stmts := [], logs := [],
        reply := ⟨StatusBadRequest, .obj [("error", .str "Invalid ID format")]⟩ } ∧
    getText textsDB Store.empty "1.5" =
      { store := Store.empty, stmts := [], logs := [],
        reply := ⟨StatusBadRequest, .obj [("error", .str "Invalid ID format")]⟩ } ∧
    getText textsDB Store.empty "9223372036854775808" =
      { store := Store.empty, stmts := [], logs := [],
        reply := ⟨StatusBadRequest, .obj [("error", .str "Invalid ID format")]⟩ } :=
  ⟨C3_unparsed_id_rejected textsDB Store.empty "abc" .errSyntax rfl,
   C3_unparsed_id_rejected textsDB Store.empty "" .errSyntax rfl,
   C3_unparsed_id_rejected textsDB Store.empty "1.5" .errSyntax rfl,
   C3_unparsed_id_rejected textsDB Store.empty "9223372036854775808" .errRange rfl⟩

/-- C4 as stated fails: the integer `2 ^ 63` is the id of no row of the empty
table, and `getText` called with its decimal rendering answers 400, not 404,
without a statement. -/
theorem C4_counterexample :
    Store.empty.hasId (2 ^ 63) = false ∧
    Itoa (2 ^ 63) = "9223372036854775808" ∧
    getText textsDB Store.empty (Itoa (2 ^ 63)) =
      { store := Store.empty, stmts := [], logs := [],
        reply := ⟨StatusBadRequest, .obj [("error", .str "Invalid ID format")]⟩ } ∧
    (getText textsDB Store.empty (Itoa (2 ^ 63))).reply.status ≠ StatusNotFound :=
  ⟨rfl, rfl, rfl, by decide⟩

/-- C4, amended: for every state of the table and every integer `n` within
the range of `int` that is the id of no row, `getText` called with the
decimal rendering of `n` issues the select for `n` and answers 404 with the
body `error: Text with id <n> not found`, `<n>` the decimal rendering of
`n`. -/
theorem C4_absent_id_not_found (st : Store) (n : Int) (hn : inIntRange n)
    (habs : st.hasId n = false) :
    getText textsDB st (Itoa n) =
      { store := st, stmts := [{ query := selectSQL, args := [.int n] }], logs := [],
        reply := ⟨StatusNotFound,
          .obj [("error", .str ("Text with id " ++ Itoa n ++ " not found"))]⟩ } :=
  getText_absent textsDB st st (Itoa n) n (Atoi_Itoa n hn)
    ((textsDB_select st n).trans (by rw [select_absent st n habs]))

/-- Witness of C4: the id 999 on a table that holds the row 1. -/
theorem C4_absent_id_not_found_witness :
    getText textsDB { rows := [{ id := 1, content := "hello" }], lastValue := 1 } "999" =
      { store := { rows := [{ id := 1, content := "hello" }], lastValue := 1 },
        stmts := [{ query := selectSQL, args := [.int 999] }], logs := [],
        reply := ⟨StatusNotFound, .obj [("error", .str "Text with id 999 not found")]⟩ } :=
  C4_absent_id_not_found { rows := [{ id := 1, content := "hello" }], lastValue := 1 } 999
    (by decide) (by decide)

/-- C5: for every create request whose body binds to an entry `e` (so that
its text is not empty) and on which the insert returns the identifier `i`,
a value of `int`, `postText` issues the single statement `insertSQL` with
the single argument `e.Text` and answers 201 with the body of `id` = `i` and
`message` = `Text stored successfully`; for the body with the single member
`text` = `s` the bound text is `s` itself. -/
theorem C5_created_reply {σ : Type} (db : Database σ) (st st' : σ) (body : Body)
    (e : TextEntry) (i : Int) (hb : ShouldBindJSON body = .ok e)
    (hq : db.queryRow st { query := insertSQL, args := [.text e.Text] } =
      (st', .ok (some [.int i])))
    (hi : inIntRange i) :
    postText db st body =
      { store := st', stmts := [{ query := insertSQL, args := [.text e.Text] }], logs := [],
        reply := ⟨StatusCreated,
          .obj [("id", .num i), ("message", .str "Text stored successfully")]⟩ } ∧
    e.Text ≠ "" ∧
    (∀ s, body = .value (.obj [("text", .str s)]) → e.Text = s) := by
  refine ⟨postText_created db st st' body e i hb hq hi, bind_ok_text_ne body e hb, ?_⟩
  intro s hs
  subst hs
  have hne : s ≠ "" := by
    intro h0
    subst h0
    have : ShouldBindJSON (.value (.obj [("text", .str "")])) = .error (.required "Text") := rfl
    rw [this] at hb
    exact absurd hb (by simp)
  rw [bind_text_only s hne] at hb
  simp only [Except.ok.injEq] at hb
  rw [← hb]

/-- Witness of C5: the body `text: hello` on the empty table gets the id 1,
and the text bound and inserted is `hello`. -/
theorem C5_created_reply_witness :
    postText textsDB Store.empty (.value (.obj [("text", .str "hello")])) =
      { store := { rows := [{ id := 1, content := "hello" }], lastValue := 1 },
        stmts := [{ query := insertSQL, args := [.text "hello"] }], logs := [],
        reply := ⟨StatusCreated,
          .obj [("id", .num 1), ("message", .str "Text stored successfully")]⟩ } ∧
    (TextEntry.mk 0 "hello").Text = "hello" :=
  ⟨(C5_created_reply textsDB Store.empty
      { rows := [{ id := 1, content := "hello" }], lastValue := 1 }
      (.value (.obj [("text", .str "hello")])) { ID := 0, Text := "hello" } 1 rfl rfl
      (by decide)).1,
   (C5_created_reply textsDB Store.empty
      { rows := [{ id := 1, content := "hello" }], lastValue := 1 }
      (.value (.obj [("text", .str "hello")])) { ID := 0, Text := "hello" } 1 rfl rfl
      (by decide)).2.2 "hello" rfl⟩

/-- C6: no error detail leaks on create. For every create request whose body
binds and any two storage errors `e1` and `e2` returned by the insert (by any
two handles in any two states), `postText` gives the same response in both
runs, status 500 with the body `error: Could not store text`; the detail of
the error goes to the log only. -/
theorem C6_insert_error_not_leaked {σ₁ σ₂ : Type} (db₁ : Database σ₁) (db₂ : Database σ₂)
    (st₁ : σ₁) (st₂ : σ₂) (body : Body) (e : TextEntry) (e1 e2 : SqlError)
    (hb : ShouldBindJSON body = .ok e)
    (h1 : (db₁.queryRow st₁ (insertStmt e.Text)).2 = .error e1)
    (h2 : (db₂.queryRow st₂ (insertStmt e.Text)).2 = .error e2) :
    (postText db₁ st₁ body).reply =
        ⟨StatusInternalServerError, .obj [("error", .str "Could not store text")]⟩ ∧
      (postText db₂ st₂ body).reply = (postText db₁ st₁ body).reply ∧
      (postText db₁ st₁ body).logs = ["DB INSERT error: " ++ e1.Error] ∧
      (postText db₂ st₂ body).logs = ["DB INSERT error: " ++ e2.Error] := by
  have r1 := postText_insert_failed db₁ st₁ body e e1 hb h1
  have r2 := postText_insert_failed db₂ st₂ body e e2 hb h2
  exact ⟨r1.1, by rw [r2.1, r1.1], r1.2, r2.2⟩

/-- Witness of C6: a refused connection and a full disk. -/
theorem C6_insert_error_not_leaked_witness :
    (postText (constDB (.error (.other "pq: connection refused"))) ()
        (.value (.obj [("text", .str "hello")]))).reply =
        ⟨StatusInternalServerError, .obj [("error", .str "Could not store text")]⟩ ∧
      (postText (constDB (.error (.other "pq: disk full"))) ()
        (.value (.obj [("text", .str "hello")]))).reply =
      (postText (constDB (.error (.other "pq: connection refused"))) ()
        (.value (.obj [("text", .str "hello")]))).reply ∧
      (postText (constDB (.error (.other "pq: connection refused"))) ()
        (.value (.obj [("text", .str "hello")]))).logs =
        ["DB INSERT error: " ++ (SqlError.other "pq: connection refused").Error] ∧
      (postText (constDB (.error (.other "pq: disk full"))) ()
        (.value (.obj [("text", .str "hello")]))).logs =
        ["DB INSERT error: " ++ (SqlError.other "pq: disk full").Error] :=
  C6_insert_error_not_leaked (constDB (.error (.other "pq: connection refused")))
    (constDB (.error (.other "pq: disk full"))) () ()
    (.value (.obj [("text", .str "hello")])) { ID := 0, Text := "hello" }
    (.other "pq: connection refused") (.other "pq: disk full") rfl rfl rfl

/-- C7: for every path parameter that parses as an `int` and every storage
error the select returns other than `sql.ErrNoRows`, `getText` answers 500
with the fixed body `error: Could not retrieve text`, whatever the error (so
the same for any two of them), its detail going to the log only; and
`getText` answers 404 only when the select found no row or returned
`sql.ErrNoRows`. -/
theorem C7_select_error_generic {σ : Type} (db : Database σ) (st : σ) (idStr : String)
    (id : Int) (hp : Atoi idStr = .ok id) :
    (∀ e : SqlError, (db.queryRow st (selectStmt id)).2 = .error e → e ≠ .errNoRows →
        (getText db st idStr).reply =
          ⟨StatusInternalServerError, .obj [("error", .str "Could not retrieve text")]⟩ ∧
        (getText db st idStr).logs = ["DB SELECT error: " ++ e.Error]) ∧
      ((getText db st idStr).reply.status = StatusNotFound →
        (db.queryRow st (selectStmt id)).2 = .ok none ∨
        (db.queryRow st (selectStmt id)).2 = .error .errNoRows) := by
  constructor
  · intro e he hne
    simp [getText, hp, he, scanEntry, hne, errorBody]
  · intro h404
    apply scanEntry_noRows
    cases hs : scanEntry (db.queryRow st (selectStmt id)).2 with
    | ok entry =>
      simp [getText, hp, hs] at h404
      exact absurd h404 (by decide)
    | error err =>
      by_cases herr : err = .errNoRows
      · rw [herr]
      · simp [getText, hp, hs, herr] at h404
        exact absurd h404 (by decide)

/-- Witness of C7: a refused connection on the path parameter `7` gives the
fixed 500; an empty result gives 404 and is the no-rows outcome. -/
theorem C7_select_error_generic_witness :
    ((getText (constDB (.error (.other "pq: connection refused"))) () "7").reply =
        ⟨StatusInternalServerError, .obj [("error", .str "Could not retrieve text")]⟩ ∧
      (getText (constDB (.error (.other "pq: connection refused"))) () "7").logs =
        ["DB SELECT error: " ++ (SqlError.other "pq: connection refused").Error]) ∧
    ((getText (constDB (.ok none)) () "7").reply.status = StatusNotFound ∧
      (((constDB (.ok none)).queryRow () (selectStmt 7)).2 = .ok none ∨
        ((constDB (.ok none)).queryRow () (selectStmt 7)).2 = .error .errNoRows)) :=
  ⟨(C7_select_error_generic (constDB (.error (.other "pq: connection refused"))) () "7" 7
      rfl).1 (.other "pq: connection refused") rfl (by decide),
   rfl, (C7_select_error_generic (constDB (.ok none)) () "7" 7 rfl).2 rfl⟩

/-- C8 as stated fails: `-5` is the decimal form of no integer `n ≥ 0`, yet
`getText` parses it, issues the select for the id -5 and answers 404 on the
empty table, not 400. -/
theorem C8_counterexample :
    (¬ ∃ n : Int, 0 ≤ n ∧ IsDecimalOf "-5" n) ∧
    getText textsDB Store.empty "-5" =
      { store := Store.empty, stmts := [{ query := selectSQL, args := [.int (-5)] }],
        logs := [],
        reply := ⟨StatusNotFound, .obj [("error", .str "Text with id -5 not found")]⟩ } ∧
    (getText textsDB Store.empty "-5").reply.status ≠ StatusBadRequest := by
  refine ⟨?_, rfl, by decide⟩
  rintro ⟨n, hn, ds, hne, hdig, h | h | h⟩
  · have hl : "-5".toList = ['-', '5'] := rfl
    rw [hl] at h
    have := hdig '-' (by rw [← h.1]; simp)
    exact absurd this (by decide)
  · have hl : "-5".toList = ['-', '5'] := rfl
    rw [hl] at h
    have := h.1
    simp at this
  · have hl : "-5".toList = ['-', '5'] := rfl
    rw [hl] at h
    have hds : ds = ['5'] := by
      have := h.1
      simp only [List.cons.injEq, true_and] at this
      exact this.symm
    have hv : n = -5 := by rw [h.2, hds]; rfl
    omega

/-- C8, amended: `getText` accepts as an identifier every path parameter that
is a decimal numeral, of either sign, of an integer within the range of
`int`. For every path parameter that is not one it answers 400 with the body
`error: Invalid ID format` and issues no storage statement; for one that is,
negative forms included, it issues the select for that integer. -/
theorem C8_id_forms_accepted {σ : Type} (db : Database σ) (st : σ) (p : String) :
    ((¬ ∃ n : Int, IsDecimalOf p n ∧ inIntRange n) →
      getText db st p =
        { store := st, stmts := [], logs := [],
          reply := ⟨StatusBadRequest, .obj [("error", .str "Invalid ID format")]⟩ }) ∧
    (∀ n : Int, IsDecimalOf p n → inIntRange n →
      (getText db st p).stmts = [{ query := selectSQL, args := [.int n] }]) := by
  constructor
  · intro h
    cases hp : Atoi p with
    | ok n => exact absurd ⟨n, (Atoi_ok_iff p n).mp hp⟩ h
    | error e => exact getText_of_parse_error db st p e hp
  · intro n hd hr
    exact getText_stmts db st p n ((Atoi_ok_iff p n).mpr ⟨hd, hr⟩)

/-- Witness of C8: `1.5` is refused, `-5` reaches storage as the id -5. -/
theorem C8_id_forms_accepted_witness :
    getText textsDB Store.empty "1.5" =
        { store := Store.empty, stmts := [], logs := [],
          reply := ⟨StatusBadRequest, .obj [("error", .str "Invalid ID format")]⟩ } ∧
      (getText textsDB Store.empty "-5").stmts =
        [{ query := selectSQL, args := [.int (-5)] }] :=
  ⟨(C8_id_forms_accepted textsDB Store.empty "1.5").1 (by
      rintro ⟨n, h⟩
      have h1 := (Atoi_ok_iff "1.5" n).mpr h
      have h2 : Atoi "1.5" = .error .errSyntax := rfl
      rw [h2] at h1
      exact absurd h1 (by simp)),
   (C8_id_forms_accepted textsDB Store.empty "-5").2 (-5)
     ⟨['5'], by simp, by simp [isDigitChar], Or.inr (Or.inr ⟨rfl, rfl⟩)⟩ (by decide)⟩

/-- C9: `setupDatabase` over the outcomes of its three steps. It returns an
error if and only if one of open, ping and ensure-table fails; a failed open
is the only step attempted and its error is wrapped as
`error opening database`; after an open that succeeded, a failed ping ends
the sequence before the statement and is wrapped as `error pinging database`;
after both, a failed `CREATE TABLE IF NOT EXISTS` is wrapped as
`error creating table`; and `nil` is returned, after all three steps, exactly
when all three succeed. -/
theorem C9_setup_first_failure (env : SetupEnv) :
    ((setupDatabase env).err ≠ none ↔
      (env.sqlOpen "postgres" (connStrOf env) ≠ none ∨ env.ping (connStrOf env) ≠ none ∨
        env.exec (connStrOf env) createTableSQL ≠ none)) ∧
    (∀ e, env.sqlOpen "postgres" (connStrOf env) = some e →
      (setupDatabase env).steps = [.sqlOpen "postgres" (connStrOf env)] ∧
      (setupDatabase env).err = some (.wrapped "error opening database" e)) ∧
    (∀ e, env.sqlOpen "postgres" (connStrOf env) = none → env.ping (connStrOf env) = some e →
      (setupDatabase env).steps = [.sqlOpen "postgres" (connStrOf env), .ping] ∧
      (setupDatabase env).err = some (.wrapped "error pinging database" e)) ∧
    (∀ e, env.sqlOpen "postgres" (connStrOf env) = none → env.ping (connStrOf env) = none →
      env.exec (connStrOf env) createTableSQL = some e →
      (setupDatabase env).steps =
        [.sqlOpen "postgres" (connStrOf env), .ping, .exec createTableSQL] ∧
      (setupDatabase env).err = some (.wrapped "error creating table" e)) ∧
    (env.sqlOpen "postgres" (connStrOf env) = none → env.ping (connStrOf env) = none →
      env.exec (connStrOf env) createTableSQL = none →
      (setupDatabase env).steps =
        [.sqlOpen "postgres" (connStrOf env), .ping, .exec createTableSQL] ∧
      (setupDatabase env).err = none) := by
  refine ⟨?_, ?_, ?_, ?_, ?_⟩
  · cases ho : env.sqlOpen "postgres" (connStrOf env) with
    | some e => simp [setupDatabase, ho]
    | none =>
      cases hpg : env.ping (connStrOf env) with
      | some e => simp [setupDatabase, ho, hpg]
      | none =>
        cases hx : env.exec (connStrOf env) createTableSQL with
        | some e => simp [setupDatabase, ho, hpg, hx]
        | none => simp [setupDatabase, ho, hpg, hx]
  · intro e ho
    simp [setupDatabase, ho]
  · intro e ho hpg
    simp [setupDatabase, ho, hpg]
  · intro e ho hpg hx
    simp [setupDatabase, ho, hpg, hx]
  · intro ho hpg hx
    simp [setupDatabase, ho, hpg, hx]

/-- Witness of C9: a failed open, a refused ping after an open, a failed
statement after both, and a run in which all three succeed. -/
theorem C9_setup_first_failure_witness :
    ((setupDatabase
          { databaseUrl := "", sqlOpen := fun _ _ => some (.plain "unknown driver"),
            ping := fun _ => none, exec := fun _ _ => none }).steps =
        [.sqlOpen "postgres" defaultConnStr] ∧
      (setupDatabase
          { databaseUrl := "", sqlOpen := fun _ _ => some (.plain "unknown driver"),
            ping := fun _ => none, exec := fun _ _ => none }).err =
        some (.wrapped "error opening database" (.plain "unknown driver"))) ∧
    ((setupDatabase
          { databaseUrl := "", sqlOpen := fun _ _ => none,
            ping := fun _ => some (.plain "connection refused"),
            exec := fun _ _ => none }).steps =
        [.sqlOpen "postgres" defaultConnStr, .ping] ∧
      (setupDatabase
          { databaseUrl := "", sqlOpen := fun _ _ => none,
            ping := fun _ => some (.plain "connection refused"),
            exec := fun _ _ => none }).err =
        some (.wrapped "error pinging database" (.plain "connection refused"))) ∧
    ((setupDatabase
          { databaseUrl := "host=db", sqlOpen := fun _ _ => none, ping := fun _ => none,
            exec := fun _ _ => some (.plain "permission denied") }).steps =
        [.sqlOpen "postgres" "host=db", .ping, .exec createTableSQL] ∧
      (setupDatabase
          { databaseUrl := "host=db", sqlOpen := fun _ _ => none, ping := fun _ => none,
            exec := fun _ _ => some (.plain "permission denied") }).err =
        some (.wrapped "error creating table" (.plain "permission denied"))) ∧
    ((setupDatabase
          { databaseUrl := "host=db", sqlOpen := fun _ _ => none, ping := fun _ => none,
            exec := fun _ _ => none }).steps =
        [.sqlOpen "postgres" "host=db", .ping, .exec createTableSQL] ∧
      (setupDatabase
          { databaseUrl := "host=db", sqlOpen := fun _ _ => none, ping := fun _ => none,
            exec := fun _ _ => none }).err = none) :=
  ⟨(C9_setup_first_failure
      { databaseUrl := "", sqlOpen := fun _ _ => some (.plain "unknown driver"),
        ping := fun _ => none, exec := fun _ _ => none }).2.1 (.plain "unknown driver") rfl,
   (C9_setup_first_failure
      { databaseUrl := "", sqlOpen := fun _ _ => none,
        ping := fun _ => some (.plain "connection refused"),
        exec := fun _ _ => none }).2.2.1 (.plain "connection refused") rfl rfl,
   (C9_setup_first_failure
      { databaseUrl := "host=db", sqlOpen := fun _ _ => none, ping := fun _ => none,
        exec := fun _ _ => some (.plain "permission denied") }).2.2.2.1
      (.plain "permission denied") rfl rfl rfl,
   (C9_setup_first_failure
      { databaseUrl := "host=db", sqlOpen := fun _ _ => none, ping := fun _ => none,
        exec := fun _ _ => none }).2.2.2.2 rfl rfl rfl⟩

/-- C10 as stated fails: with the text `x`, the client-supplied id `2 ^ 63`
does not fit `int`, the body does not bind and `postText` answers 400 without
an insert, while with the id 1 it inserts and answers 201. -/
theorem C10_counterexample :
    postText textsDB Store.empty (.value (.obj [("id", .num (2 ^ 63)), ("text", .str "x")])) =
      { store := Store.empty, stmts := [], logs := [],
        reply := ⟨StatusBadRequest,
          .obj [("error", .str "Invalid request body or missing 'text' field")]⟩ } ∧
    postText textsDB Store.empty (.value (.obj [("id", .num 1), ("text", .str "x")])) =
      { store := { rows := [{ id := 1, content := "x" }], lastValue := 1 },
        stmts := [{ query := insertSQL, args := [.text "x"] }], logs := [],
        reply := ⟨StatusCreated,
          .obj [("id", .num 1), ("message", .str "Text stored successfully")]⟩ } ∧
    (postText textsDB Store.empty
        (.value (.obj [("id", .num (2 ^ 63)), ("text", .str "x")]))).reply.status ≠
      (postText textsDB Store.empty
        (.value (.obj [("id", .num 1), ("text", .str "x")]))).reply.status :=
  ⟨rfl, rfl, by decide⟩

/-- C10, amended: the identifier of a created entry is assigned by the storage
layer only. For every handle and state, every non-empty string `s` and any
two integers `a` and `b` within the range of `int`, `postText` given the body
of `id` = `a`, `text` = `s` and given the body of `id` = `b`, `text` = `s`
issues the same single statement `insertSQL` with the single argument `s`,
leaves the same store and returns the same response, which are also those of
the body without an `id`. -/
theorem C10_client_id_ignored {σ : Type} (db : Database σ) (st : σ) (s : String)
    (a b : Int) (hs : s ≠ "") (ha : inIntRange a) (hb : inIntRange b) :
    postText db st (.value (.obj [("id", .num a), ("text", .str s)])) =
        postText db st (.value (.obj [("id", .num b), ("text", .str s)])) ∧
      postText db st (.value (.obj [("id", .num a), ("text", .str s)])) =
        postText db st (.value (.obj [("text", .str s)])) ∧
      (postText db st (.value (.obj [("id", .num a), ("text", .str s)]))).stmts =
        [{ query := insertSQL, args := [.text s] }] :=
  ⟨postText_congr db st _ _ _ _ (bind_id_text a s ha hs) (bind_id_text b s hb hs) rfl,
   postText_congr db st _ _ _ _ (bind_id_text a s ha hs) (bind_text_only s hs) rfl,
   postText_stmts db st _ _ (bind_id_text a s ha hs)⟩

/-- Witness of C10: the ids 7 and -3 with the text `x` on the empty table. -/
theorem C10_client_id_ignored_witness :
    postText textsDB Store.empty (.value (.obj [("id", .num 7), ("text", .str "x")])) =
        postText textsDB Store.empty (.value (.obj [("id", .num (-3)), ("text", .str "x")])) ∧
      postText textsDB Store.empty (.value (.obj [("id", .num 7), ("text", .str "x")])) =
        postText textsDB Store.empty (.value (.obj [("text", .str "x")])) ∧
      (postText textsDB Store.empty (.value (.obj [("id", .num 7), ("text", .str "x")]))).stmts =
        [{ query := insertSQL, args := [.text "x"] }] :=
  C10_client_id_ignored textsDB Store.empty "x" 7 (-3) (by decide) (by decide) (by decide)

end TextService
